import Mathlib

/-!
Verification of the bill-tracker CSV → JSON converter
(`scripts/csv_to_json.py`).

The converter reads a CSV file, builds a case-insensitive header lookup,
extracts six logical fields per row, validates required fields, normalizes
the due date and the amount, accumulates bill records and a category set,
and assembles the output payload.

Modelling conventions of this shallow embedding:
* A CSV file is its header row (`fieldnames`) plus a list of data rows,
  each row a list of cell strings (the `csv` module's parsing of quoting
  and commas is below the model).
* Python `float` values are modelled exactly: finite values as rationals,
  plus distinguished `inf`/`nan` results of the string parse.  Binary
  rounding and overflow of IEEE doubles are outside the model.
* Python exceptions inside the row loop are modelled as explicit outcome
  values (`Except` / `RowOutcome`); the code catches them per row.
* `datetime.strptime` is modelled including the ordered-alternation
  backtracking of CPython's `_strptime` regexes for `%m` and `%d`, the
  trailing unconverted-data check, the century pivot of `%y`
  (00–68 → 2000s, 69–99 → 1900s), and calendar validation.
-/

/-! ### String primitives

Kernel-computable models of the Python string operations the script uses
(`str.strip`, `str.lower`, `str.replace` with single-character patterns,
`in`, `split`, and decimal rendering of naturals). -/

/-- Whitespace stripped by Python's `str.strip()` (ASCII part). -/
def isPyWs (c : Char) : Bool :=
  c = ' ' ∨ c = '\t' ∨ c = '\n' ∨ c = '\r' ∨ c = '\x0b' ∨ c = '\x0c'

def trimList (cs : List Char) : List Char :=
  ((cs.dropWhile isPyWs).reverse.dropWhile isPyWs).reverse

/-- `s.strip()`. -/
def pyStrip (s : String) : String := ⟨trimList s.data⟩

def lowerChar (c : Char) : Char :=
  if 'A' ≤ c ∧ c ≤ 'Z' then Char.ofNat (c.toNat + 32) else c

/-- `s.lower()` (ASCII part). -/
def lowerStr (s : String) : String := ⟨s.data.map lowerChar⟩

/-- `s.replace(str(c), '')`: removing every occurrence of a single
character. -/
def removeChar (c : Char) (s : String) : String :=
  ⟨s.data.filter (fun x => x ≠ c)⟩

/-- `c in s` for a single-character needle. -/
def containsChar (s : String) (c : Char) : Bool := s.data.contains c

/-- `s.split(str(sep))` for a single-character separator (keeps empty
segments, like Python). -/
def splitOnChar (sep : Char) (cs : List Char) : List (List Char) :=
  cs.foldr
    (fun c acc =>
      match acc with
      | [] => [[c]]
      | g :: gs => if c = sep then [] :: g :: gs else (c :: g) :: gs)
    [[]]

def natDigitsAux : Nat → Nat → List Char → List Char
  | 0, _, acc => acc
  | fuel + 1, n, acc =>
      if n < 10 then Char.ofNat (48 + n) :: acc
      else natDigitsAux fuel (n / 10) (Char.ofNat (48 + n % 10) :: acc)

/-- Decimal rendering of a natural number. -/
def natToString (n : Nat) : String := ⟨natDigitsAux (n + 1) n []⟩

example : splitOnChar '-' "a--b".data = ["a".data, [], "b".data] := by decide
example : pyStrip "  a b\t" = "a b" := by decide
example : natToString 2024 = "2024" := by decide
example : natToString 0 = "0" := by decide

/-! ### Python float strings -/

/-- Result of a successful Python `float(...)` conversion: a finite value
(modelled exactly as a rational), a signed infinity, or a NaN. -/
inductive PyFloat where
  | finite (q : Rat)
  | inf (neg : Bool)
  | nan
deriving DecidableEq, Repr

/-- Numeric value of a list of decimal digit characters. -/
def digitsToNat (ds : List Char) : Nat :=
  ds.foldl (fun a c => a * 10 + (c.toNat - 48)) 0

/-- Validate and remove Python numeric-literal underscores: every `_` must
be directly between two digits.  `prev` is the character just before the
current position. -/
def stripUnders : Option Char → List Char → Option (List Char)
  | _, [] => some []
  | prev, c :: rest =>
    if c = '_' then
      match prev, rest with
      | some p, n :: _ =>
          if p.isDigit ∧ n.isDigit then stripUnders (some c) rest else none
      | _, _ => none
    else (stripUnders (some c) rest).map (c :: ·)

/-- Parse an unsigned decimal numeral with optional fraction and exponent
(the body of Python's float grammar, underscores already removed),
returning its exact rational value. -/
def parseDecimal (cs : List Char) : Option Rat :=
  let ip := cs.takeWhile Char.isDigit
  let r1 := cs.dropWhile Char.isDigit
  let hasDot : Bool := match r1 with | '.' :: _ => true | _ => false
  let afterDot := match r1 with | '.' :: rest => rest | _ => r1
  let fp := if hasDot then afterDot.takeWhile Char.isDigit else []
  let r2 := if hasDot then afterDot.dropWhile Char.isDigit else r1
  if ip.isEmpty && fp.isEmpty then none
  else
    let num := digitsToNat ip * 10 ^ fp.length + digitsToNat fp
    let den := 10 ^ fp.length
    match r2 with
    | [] => some (mkRat num den)
    | c :: rest =>
      if c = 'e' ∨ c = 'E' then
        let se : Bool × List Char := match rest with
          | '+' :: r => (false, r)
          | '-' :: r => (true, r)
          | r => (false, r)
        let ed := se.2.takeWhile Char.isDigit
        let r4 := se.2.dropWhile Char.isDigit
        if ed.isEmpty ∨ ¬ r4.isEmpty then none
        else
          some (if se.1 then mkRat num (den * 10 ^ digitsToNat ed)
                else mkRat (num * 10 ^ digitsToNat ed) den)
      else none

/-- Model of Python's `float(str)`: strip surrounding whitespace, take an
optional sign, accept `inf`/`infinity`/`nan` case-insensitively, otherwise
parse a decimal numeral (underscores allowed between digits).  `none`
models the `ValueError` raised on any other input. -/
def pyFloat (s : String) : Option PyFloat :=
  let cs := trimList s.data
  let sc : Bool × List Char := match cs with
    | '+' :: r => (false, r)
    | '-' :: r => (true, r)
    | r => (false, r)
  let low := sc.2.map lowerChar
  if low = ['i', 'n', 'f'] ∨ low = ['i', 'n', 'f', 'i', 'n', 'i', 't', 'y'] then
    some (.inf sc.1)
  else if low = ['n', 'a', 'n'] then some .nan
  else
    match stripUnders none sc.2 with
    | none => none
    | some cs2 => (parseDecimal cs2).map fun q => .finite (if sc.1 then -q else q)

example : pyFloat "1234.56" = some (.finite (mkRat 123456 100)) := by decide
example : pyFloat "0" = some (.finite (mkRat 0 1)) := by decide
example : pyFloat "" = none := by decide
example : pyFloat "abc" = none := by decide
example : pyFloat "1e3" = some (.finite (mkRat 1000 1)) := by decide
example : pyFloat "+5" = some (.finite (mkRat 5 1)) := by decide
example : pyFloat " -inf" = some (.inf true) := by decide
example : pyFloat "Infinity" = some (.inf false) := by decide
example : pyFloat "nan" = some .nan := by decide
example : pyFloat "1_0" = some (.finite (mkRat 10 1)) := by decide
example : pyFloat "1__0" = none := by decide
example : pyFloat "5." = some (.finite (mkRat 5 1)) := by decide
example : pyFloat ".5" = some (.finite (mkRat 1 2)) := by decide
example : pyFloat "." = none := by decide
example : pyFloat "1e" = none := by decide
example : pyFloat "-2.5e-1" = some (.finite (mkRat (-1) 4)) := by decide

/-! ### Dates and `datetime.strptime` -/

/-- A parsed calendar date (the fields of the `datetime` the script builds). -/
structure PyDate where
  year : Nat
  month : Nat
  day : Nat
deriving DecidableEq, Repr

def isLeap (y : Nat) : Bool :=
  (y % 4 = 0 && y % 100 ≠ 0) || y % 400 = 0

def daysInMonth (y m : Nat) : Nat :=
  if m = 2 then (if isLeap y then 29 else 28)
  else if m = 4 ∨ m = 6 ∨ m = 9 ∨ m = 11 then 30
  else 31

/-- Range checks performed by the `datetime` constructor. -/
def validDate (y m d : Nat) : Bool :=
  decide (1 ≤ y ∧ y ≤ 9999 ∧ 1 ≤ m ∧ m ≤ 12 ∧ 1 ≤ d ∧ d ≤ daysInMonth y m)

def mkDate (y m d : Nat) : Option PyDate :=
  if validDate y m d then some ⟨y, m, d⟩ else none

/-- Consume exactly `n` decimal digits from the front (the `%y`/`%Y`
regexes `\d\d` and `\d\d\d\d`), returning their value and the rest. -/
def takeDigitsAux : Nat → Nat → List Char → Option (Nat × List Char)
  | 0, acc, cs => some (acc, cs)
  | n + 1, acc, c :: cs =>
      if c.isDigit then takeDigitsAux n (acc * 10 + (c.toNat - 48)) cs else none
  | _ + 1, _, [] => none

def takeDigits (n : Nat) (cs : List Char) : Option (Nat × List Char) :=
  takeDigitsAux n 0 cs

/-- Ordered candidates of CPython's `%m` regex `1[0-2]|0[1-9]|[1-9]`. -/
def monthCands (cs : List Char) : List (Nat × List Char) :=
  (match cs with
   | '1' :: c :: rest =>
       if '0' ≤ c ∧ c ≤ '2' then [(10 + (c.toNat - 48), rest)] else []
   | _ => []) ++
  (match cs with
   | '0' :: c :: rest =>
       if '1' ≤ c ∧ c ≤ '9' then [(c.toNat - 48, rest)] else []
   | _ => []) ++
  (match cs with
   | c :: rest => if '1' ≤ c ∧ c ≤ '9' then [(c.toNat - 48, rest)] else []
   | _ => [])

/-- Ordered candidates of CPython's `%d` regex `3[01]|[12]\d|0[1-9]|[1-9]`. -/
def dayCands (cs : List Char) : List (Nat × List Char) :=
  (match cs with
   | '3' :: c :: rest =>
       if c = '0' ∨ c = '1' then [(30 + (c.toNat - 48), rest)] else []
   | _ => []) ++
  (match cs with
   | c1 :: c2 :: rest =>
       if (c1 = '1' ∨ c1 = '2') ∧ c2.isDigit then
         [((c1.toNat - 48) * 10 + (c2.toNat - 48), rest)] else []
   | _ => []) ++
  (match cs with
   | '0' :: c :: rest =>
       if '1' ≤ c ∧ c ≤ '9' then [(c.toNat - 48, rest)] else []
   | _ => []) ++
  (match cs with
   | c :: rest => if '1' ≤ c ∧ c ≤ '9' then [(c.toNat - 48, rest)] else []
   | _ => [])

/-- Keep the candidates whose rest begins with the literal separator,
consuming it (a literal in the format string between two fields). -/
def afterSep (sep : Char) (cands : List (Nat × List Char)) :
    List (Nat × List Char) :=
  cands.filterMap fun mc =>
    match mc.2 with
    | c :: rest => if c = sep then some (mc.1, rest) else none
    | [] => none

/-- Century pivot applied by `_strptime` to a `%y` value. -/
def expandY2 (y : Nat) : Nat :=
  if y ≤ 68 then 2000 + y else 1900 + y

/-- `datetime.strptime(s, 'year-%m-%d')` where the year field is `%y`
(two digits, pivot-expanded) or `%Y` (four digits).  The first full
regex match is taken (ordered alternation with backtracking), then the
whole string must have been consumed, then the calendar is validated. -/
def strptimeDashY (yearDigits : Nat) (expand : Bool) (s : String) :
    Option PyDate :=
  match takeDigits yearDigits s.data with
  | none => none
  | some (yraw, r1) =>
    match r1 with
    | '-' :: r2 =>
      match (afterSep '-' (monthCands r2)).findSome? (fun mc =>
          (dayCands mc.2).findSome? fun dc => some (mc.1, dc.1, dc.2)) with
      | none => none
      | some (m, d, rest) =>
        if rest.isEmpty then
          mkDate (if expand then expandY2 yraw else yraw) m d
        else none
    | _ => none

/-- `datetime.strptime(s, '%m/%d/year')` with a 2- or 4-digit year field. -/
def strptimeSlash (yearDigits : Nat) (expand : Bool) (s : String) :
    Option PyDate :=
  match (afterSep '/' (monthCands s.data)).findSome? (fun mc =>
      (afterSep '/' (dayCands mc.2)).findSome? fun dc =>
        (takeDigits yearDigits dc.2).map fun yr => (mc.1, dc.1, yr.1, yr.2)) with
  | none => none
  | some (m, d, yraw, rest) =>
    if rest.isEmpty then
      mkDate (if expand then expandY2 yraw else yraw) m d
    else none

/-- `datetime.strptime(s, '%Y%m%d')`. -/
def strptimeCompact (s : String) : Option PyDate :=
  match takeDigits 4 s.data with
  | none => none
  | some (y, r1) =>
    match (monthCands r1).findSome? (fun mc =>
        (dayCands mc.2).findSome? fun dc => some (mc.1, dc.1, dc.2)) with
    | none => none
    | some (m, d, rest) => if rest.isEmpty then mkDate y m d else none

/-- `datetime.strptime(s, '%y-%m-%d')`. -/
def strptime_y_dash : String → Option PyDate := strptimeDashY 2 true

/-- `datetime.strptime(s, '%Y-%m-%d')`. -/
def strptime_Y_dash : String → Option PyDate := strptimeDashY 4 false

/-- `datetime.strptime(s, '%m/%d/%y')`. -/
def strptime_mdy : String → Option PyDate := strptimeSlash 2 true

/-- `datetime.strptime(s, '%m/%d/%Y')`. -/
def strptime_mdY : String → Option PyDate := strptimeSlash 4 false

/-- Zero-pad the decimal rendering of `n` to `width` characters. -/
def padZ (width n : Nat) : String :=
  ⟨List.replicate (width - (natToString n).data.length) '0'⟩ ++ natToString n

/-- `dt.strftime('%Y-%m-%d')`. -/
def renderDate (d : PyDate) : String :=
  padZ 4 d.year ++ "-" ++ padZ 2 d.month ++ "-" ++ padZ 2 d.day

/-- Format dispatch of lines 51–64 of the script: `-` first (2-character
first segment selects `%y`), then `/` (2-character last segment selects
`%y`), else compact. -/
def tryParseDate (due_date : String) : Option PyDate :=
  if containsChar due_date '-' then
    if ((splitOnChar '-' due_date.data).headD []).length = 2 then
      strptime_y_dash due_date
    else strptime_Y_dash due_date
  else if containsChar due_date '/' then
    if ((splitOnChar '/' due_date.data).getLastD []).length = 2 then
      strptime_mdy due_date
    else strptime_mdY due_date
  else strptimeCompact due_date

/-- The `formatted_date` computed in the row loop: empty input gives the
empty string; a successful parse is re-rendered; a failed parse keeps the
raw string. -/
def formatted_date (due_date : String) : String :=
  if due_date = "" then ""
  else
    match tryParseDate due_date with
    | some d => renderDate d
    | none => due_date

example : formatted_date "2024-03-15" = "2024-03-15" := by decide
example : formatted_date "24-03-15" = "2024-03-15" := by decide
example : formatted_date "69-01-01" = "1969-01-01" := by decide
example : formatted_date "03/15/2024" = "2024-03-15" := by decide
example : formatted_date "03/15/24" = "2024-03-15" := by decide
example : formatted_date "20240315" = "2024-03-15" := by decide
example : formatted_date "not-a-date" = "not-a-date" := by decide
example : formatted_date "2024-02-30" = "2024-02-30" := by decide
example : formatted_date "2024-3-5" = "2024-03-05" := by decide
example : formatted_date "2024120" = "2024-01-20" := by decide
example : formatted_date "202410231" = "202410231" := by decide
example : formatted_date "" = "" := by decide

/-! ### The row pipeline

`CsvFile` is the decoded CSV: the header row of `csv.DictReader` plus the
data rows as lists of cells.  `DictReader` binds each row's cells to the
fieldnames positionally; a header position beyond the end of a short row
is bound to Python `None` (modelled as a missing value, whose `.strip()`
raises). -/

structure CsvFile where
  fieldnames : List String
  rows : List (List String)
deriving DecidableEq, Repr

/-- The `headers` dict of line 24: normalized key (stripped, lower-cased)
to original header, later duplicates overwriting earlier ones.  `headers
fs k` is `headers.get(k)`. -/
def headers (fieldnames : List String) (k : String) : Option String :=
  ((fieldnames.map fun h => (lowerStr (pyStrip h), h)).filter
      fun p => p.1 = k).getLast?.map (·.2)

/-- Value bound to header `f` in the row dict built by `DictReader` for
`cells` (last duplicate wins; `none` models Python `None` for a short
row). -/
def rowVal (fieldnames cells : List String) (f : String) : Option String :=
  match ((fieldnames.enum.filter fun p => p.2 = f).getLast?) with
  | some (i, _) => cells.get? i
  | none => none

/-- `get_val` of lines 26–28: look up `key.lower()` in `headers`; when a
header is found, strip the row's cell (`.error` models the exception if
the cell is Python `None`); otherwise return the default. -/
def get_val (fieldnames cells : List String) (key dflt : String) :
    Except Unit String :=
  match headers fieldnames (lowerStr key) with
  | some actual =>
    match rowVal fieldnames cells actual with
    | some v => Except.ok (pyStrip v)
    | none => Except.error ()
  | none => Except.ok dflt

/-- The six logical fields extracted at lines 32–37. -/
structure Fields where
  name : String
  category : String
  dueDate : String
  amount : String
  recurrence : String
  notes : String
deriving DecidableEq, Repr

/-- Lines 32–37: sequential extraction; the first cell-access exception
aborts the row. -/
def extractFields (fs cells : List String) : Except Unit Fields := do
  let name ← get_val fs cells "Name" ""
  let category ← get_val fs cells "Category" "Other"
  let dueDate ← get_val fs cells "Due Date" ""
  let amount ← get_val fs cells "Amount" "0"
  let recurrence ← get_val fs cells "Recurrence" "Monthly"
  let notes ← get_val fs cells "Notes" ""
  return { name, category, dueDate, amount, recurrence, notes }

/-- One output bill record (lines 72–79). -/
structure Bill where
  name : String
  category : String
  dueDate : String
  amountDue : PyFloat
  recurrence : String
  notes : String
deriving DecidableEq, Repr

/-- `amount.replace('$', '').replace(',', '')` at line 76. -/
def stripAmount (s : String) : String := removeChar ',' (removeChar '$' s)

/-- Outcome of one iteration of the row loop (lines 30–82):
`fieldError` = exception during field extraction; `skippedMissing` =
required name/due-date check failed (line 39, before the category is
added); `amountError c` = `float(...)` raised after the category was
already added (the set-then-skip quirk); `ok c b` = record appended. -/
inductive RowOutcome where
  | fieldError
  | skippedMissing
  | amountError (category : String)
  | ok (category : String) (bill : Bill)
deriving DecidableEq, Repr

/-- Lines 39–80 acting on the extracted fields: required-field check,
then date normalization and the fallible float conversion. -/
def processFields (f : Fields) : RowOutcome :=
  if f.name = "" ∨ f.dueDate = "" then RowOutcome.skippedMissing
  else
    match pyFloat (stripAmount f.amount) with
    | none => RowOutcome.amountError f.category
    | some a =>
        RowOutcome.ok f.category
          { name := f.name, category := f.category,
            dueDate := formatted_date f.dueDate, amountDue := a,
            recurrence := f.recurrence, notes := f.notes }

/-- The body of the row loop. -/
def processRow (fs cells : List String) : RowOutcome :=
  match extractFields fs cells with
  | Except.error _ => RowOutcome.fieldError
  | Except.ok f => processFields f

/-- The record a row contributes to `bills` (if any). -/
def rowBill (fs cells : List String) : Option Bill :=
  match processRow fs cells with
  | RowOutcome.ok _ b => some b
  | _ => none

/-- The category a row adds to the `categories` set (if any): only rows
past the required-field check add one, and only when it is non-empty —
including rows later skipped by the amount error. -/
def rowCat (fs cells : List String) : Option String :=
  match processRow fs cells with
  | RowOutcome.amountError c => if c = "" then none else some c
  | RowOutcome.ok c _ => if c = "" then none else some c
  | _ => none

/-- The output payload (lines 84–89). -/
structure Payload where
  exportDate : String
  version : String
  bills : List Bill
  customCategories : List String
deriving DecidableEq, Repr

/-- One step of the loop acting on the `(bills, categories)`
accumulators. -/
def step (fs : List String) (acc : List Bill × Finset String)
    (cells : List String) : List Bill × Finset String :=
  match processRow fs cells with
  | RowOutcome.fieldError => acc
  | RowOutcome.skippedMissing => acc
  | RowOutcome.amountError c =>
      (acc.1, if c = "" then acc.2 else insert c acc.2)
  | RowOutcome.ok c b =>
      (acc.1 ++ [b], if c = "" then acc.2 else insert c acc.2)

/-- `convert_csv_to_json` on an already-decoded CSV, with the clock value
passed explicitly (`now` stands for `datetime.now().isoformat()`): runs
the row loop, then assembles the payload with the sorted category set. -/
def convert_csv_to_json (file : CsvFile) (now : String) : Payload :=
  let acc := file.rows.foldl (step file.fieldnames) ([], ∅)
  { exportDate := now ++ "Z", version := "1.0", bills := acc.1,
    customCategories := acc.2.sort (· ≤ ·) }

example :
    processRow ["Name", "Due Date", "Amount"] ["A", "2024-01-01", "$1,234.56"] =
      RowOutcome.ok "Other"
        { name := "A", category := "Other", dueDate := "2024-01-01",
          amountDue := PyFloat.finite (mkRat 30864 25), recurrence := "Monthly",
          notes := "" } := by decide

example :
    processRow ["Name", "Due Date", "Amount"] ["A", "2024-01-01", "abc"] =
      RowOutcome.amountError "Other" := by decide

example :
    processRow ["Name", "Due Date"] ["", "2024-01-01"] =
      RowOutcome.skippedMissing := by decide

example :
    processRow [" DUE DATE ", "name"] ["2024-01-01", "A"] =
      RowOutcome.ok "Other"
        { name := "A", category := "Other", dueDate := "2024-01-01",
          amountDue := PyFloat.finite 0, recurrence := "Monthly",
          notes := "" } := by decide

example :
    processRow ["Name", "Due Date", "Notes"] ["A", "2024-01-01"] =
      RowOutcome.fieldError := by decide

/-! ### Structure of the accumulation loop -/

theorem foldl_step_fst (fs : List String) (rows : List (List String)) :
    ∀ (bs : List Bill) (cs : Finset String),
      (rows.foldl (step fs) (bs, cs)).1 = bs ++ rows.filterMap (rowBill fs) := by
  induction rows with
  | nil => intro bs cs; simp
  | cons r rows ih =>
    intro bs cs
    cases h : processRow fs r with
    | fieldError => simp [step, h, ih, rowBill]
    | skippedMissing => simp [step, h, ih, rowBill]
    | amountError c => simp [step, h, ih, rowBill]
    | ok c b => simp [step, h, ih, rowBill]

theorem foldl_step_snd (fs : List String) (rows : List (List String)) :
    ∀ (bs : List Bill) (cs : Finset String),
      (rows.foldl (step fs) (bs, cs)).2 =
        (rows.filterMap (rowCat fs)).foldl (fun s c => insert c s) cs := by
  induction rows with
  | nil => intro bs cs; simp
  | cons r rows ih =>
    intro bs cs
    cases h : processRow fs r with
    | fieldError => simp [step, h, ih, rowCat]
    | skippedMissing => simp [step, h, ih, rowCat]
    | amountError c =>
      by_cases hc : c = "" <;> simp [step, h, ih, rowCat, hc]
    | ok c b =>
      by_cases hc : c = "" <;> simp [step, h, ih, rowCat, hc]

theorem foldl_insert_toFinset (l : List String) :
    ∀ s : Finset String,
      l.foldl (fun t c => insert c t) s = s ∪ l.toFinset := by
  induction l with
  | nil => intro s; simp
  | cons a l ih =>
    intro s; simp [ih, Finset.insert_union, Finset.union_insert]

/-- The bills list is exactly the in-order `filterMap` of the rows. -/
theorem convert_bills (file : CsvFile) (now : String) :
    (convert_csv_to_json file now).bills =
      file.rows.filterMap (rowBill file.fieldnames) := by
  simp [convert_csv_to_json, foldl_step_fst]

/-- The category list is the sorted set of the in-order category
contributions of the rows. -/
theorem convert_cats (file : CsvFile) (now : String) :
    (convert_csv_to_json file now).customCategories =
      ((file.rows.filterMap (rowCat file.fieldnames)).toFinset).sort (· ≤ ·) := by
  simp [convert_csv_to_json, foldl_step_snd, foldl_insert_toFinset]

/-- Category contribution of a row as the spec words it: the category
value, when non-empty, of any row that passed the name/due-date
requirement check — regardless of whether the amount later parses. -/
def specRowCat (fs cells : List String) : Option String :=
  match extractFields fs cells with
  | Except.error _ => none
  | Except.ok f =>
    if f.name ≠ "" ∧ f.dueDate ≠ "" ∧ f.category ≠ "" then some f.category
    else none

theorem rowCat_eq_spec (fs cells : List String) :
    rowCat fs cells = specRowCat fs cells := by
  unfold rowCat specRowCat processRow processFields
  cases h : extractFields fs cells with
  | error e => simp
  | ok f =>
    by_cases hn : f.name = "" <;> by_cases hd : f.dueDate = "" <;>
      by_cases hc : f.category = "" <;>
        simp [hn, hd, hc] <;>
        cases pyFloat (stripAmount f.amount) <;> simp [hc]

/-! ### Non-emptiness of normalized dates -/

theorem renderDate_ne (d : PyDate) : renderDate d ≠ "" := by
  intro h
  unfold renderDate at h
  have h2 := congrArg String.length h
  rw [String.length_append, String.length_append, String.length_append,
    String.length_append] at h2
  have h3 : ("-" : String).length = 1 := rfl
  have h4 : ("" : String).length = 0 := rfl
  rw [h3, h4] at h2
  omega

theorem formatted_date_ne (s : String) (hs : s ≠ "") :
    formatted_date s ≠ "" := by
  unfold formatted_date
  rw [if_neg hs]
  cases h : tryParseDate s with
  | none => simpa using hs
  | some d => simpa using renderDate_ne d

/-! ### The date policy as the spec words it -/

/-- The five `strptime` patterns the script chooses between. -/
inductive DateFmt where
  | yDash
  | YDash
  | mdy
  | mdY
  | compact
deriving DecidableEq, Repr

/-- Pattern selection as the spec words it: `-` present → `%y-%m-%d` when
the first `-`-separated segment has exactly 2 characters else `%Y-%m-%d`;
else `/` present → `%m/%d/%y` when the last `/`-separated segment has
exactly 2 characters else `%m/%d/%Y`; else compact `%Y%m%d`. -/
def specSelectFmt (s : String) : DateFmt :=
  if containsChar s '-' then
    if ((splitOnChar '-' s.data).headD []).length = 2 then DateFmt.yDash
    else DateFmt.YDash
  else if containsChar s '/' then
    if ((splitOnChar '/' s.data).getLastD []).length = 2 then DateFmt.mdy
    else DateFmt.mdY
  else DateFmt.compact

def runFmt : DateFmt → String → Option PyDate
  | DateFmt.yDash => strptime_y_dash
  | DateFmt.YDash => strptime_Y_dash
  | DateFmt.mdy => strptime_mdy
  | DateFmt.mdY => strptime_mdY
  | DateFmt.compact => strptimeCompact

/-- Date normalization as the spec words it: run the selected pattern; on
success render `YYYY-MM-DD`, on failure keep the raw string. -/
def specNormalizeDate (s : String) : String :=
  match runFmt (specSelectFmt s) s with
  | some d => renderDate d
  | none => s

theorem tryParseDate_eq_spec (s : String) :
    tryParseDate s = runFmt (specSelectFmt s) s := by
  unfold tryParseDate specSelectFmt
  by_cases h1 : containsChar s '-' = true
  · rw [if_pos h1, if_pos h1]
    by_cases h2 : ((splitOnChar '-' s.data).headD []).length = 2
    · rw [if_pos h2, if_pos h2]; rfl
    · rw [if_neg h2, if_neg h2]; rfl
  · rw [if_neg h1, if_neg h1]
    by_cases h3 : containsChar s '/' = true
    · rw [if_pos h3, if_pos h3]
      by_cases h4 : ((splitOnChar '/' s.data).getLastD []).length = 2
      · rw [if_pos h4, if_pos h4]; rfl
      · rw [if_neg h4, if_neg h4]; rfl
    · rw [if_neg h3, if_neg h3]; rfl

/-! ### Row-level characterizations -/

theorem processRow_of_extract (fs cells : List String) (f : Fields)
    (hf : extractFields fs cells = Except.ok f) :
    processRow fs cells = processFields f := by
  unfold processRow
  rw [hf]

theorem processFields_skip (f : Fields) (h : f.name = "" ∨ f.dueDate = "") :
    processFields f = RowOutcome.skippedMissing := by
  unfold processFields
  rw [if_pos h]

theorem processFields_accepted (f : Fields) (hn : ¬ f.name = "")
    (hd : ¬ f.dueDate = "") (a : PyFloat)
    (hq : pyFloat (stripAmount f.amount) = some a) :
    processFields f = RowOutcome.ok f.category
      { name := f.name, category := f.category,
        dueDate := formatted_date f.dueDate, amountDue := a,
        recurrence := f.recurrence, notes := f.notes } := by
  unfold processFields
  rw [if_neg (fun hor => hor.elim hn hd), hq]

theorem processFields_amountError (f : Fields) (hn : ¬ f.name = "")
    (hd : ¬ f.dueDate = "")
    (hq : pyFloat (stripAmount f.amount) = none) :
    processFields f = RowOutcome.amountError f.category := by
  unfold processFields
  rw [if_neg (fun hor => hor.elim hn hd), hq]

theorem rowBill_of_ok (fs cells : List String) (c : String) (b : Bill)
    (h : processRow fs cells = RowOutcome.ok c b) :
    rowBill fs cells = some b := by
  unfold rowBill
  rw [h]

theorem rowBill_of_fieldError (fs cells : List String)
    (h : processRow fs cells = RowOutcome.fieldError) :
    rowBill fs cells = none := by
  unfold rowBill
  rw [h]

theorem rowBill_of_skip (fs cells : List String)
    (h : processRow fs cells = RowOutcome.skippedMissing) :
    rowBill fs cells = none := by
  unfold rowBill
  rw [h]

theorem rowBill_of_amountError (fs cells : List String) (c : String)
    (h : processRow fs cells = RowOutcome.amountError c) :
    rowBill fs cells = none := by
  unfold rowBill
  rw [h]

theorem rowCat_of_skip (fs cells : List String)
    (h : processRow fs cells = RowOutcome.skippedMissing) :
    rowCat fs cells = none := by
  unfold rowCat
  rw [h]

theorem processFields_ok_elim (f : Fields) (c : String) (bb : Bill)
    (h : processFields f = RowOutcome.ok c bb) :
    ¬ f.name = "" ∧ ¬ f.dueDate = "" ∧
    ∃ a, pyFloat (stripAmount f.amount) = some a ∧
      bb = { name := f.name, category := f.category,
             dueDate := formatted_date f.dueDate, amountDue := a,
             recurrence := f.recurrence, notes := f.notes } := by
  unfold processFields at h
  by_cases hnd : f.name = "" ∨ f.dueDate = ""
  · rw [if_pos hnd] at h
    simp at h
  · rw [if_neg hnd] at h
    cases hq : pyFloat (stripAmount f.amount) with
    | none =>
      rw [hq] at h
      simp at h
    | some a =>
      rw [hq] at h
      injection h with h1 h2
      exact ⟨fun hh => hnd (Or.inl hh), fun hh => hnd (Or.inr hh), a, rfl,
        h2.symm⟩

theorem rowBill_some_elim (fs cells : List String) (b : Bill)
    (h : rowBill fs cells = some b) :
    ∃ f a, extractFields fs cells = Except.ok f ∧
      ¬ f.name = "" ∧ ¬ f.dueDate = "" ∧
      pyFloat (stripAmount f.amount) = some a ∧
      b = { name := f.name, category := f.category,
            dueDate := formatted_date f.dueDate, amountDue := a,
            recurrence := f.recurrence, notes := f.notes } := by
  unfold rowBill at h
  cases hp : processRow fs cells with
  | fieldError => rw [hp] at h; simp at h
  | skippedMissing => rw [hp] at h; simp at h
  | amountError c => rw [hp] at h; simp at h
  | ok c bb =>
    rw [hp] at h
    simp at h
    subst h
    cases he : extractFields fs cells with
    | error e =>
      have hpe : processRow fs cells = RowOutcome.fieldError := by
        unfold processRow
        rw [he]
      rw [hp] at hpe
      simp at hpe
    | ok f =>
      have hpf := (processRow_of_extract fs cells f he).symm.trans hp
      obtain ⟨hn, hd, a, hq, hbb⟩ := processFields_ok_elim f c bb hpf
      exact ⟨f, a, rfl, hn, hd, hq, hbb⟩

/-! ### Claims -/

/-- C1, counterexample: the claim says a present-but-blank Category cell
yields the default `"Other"`; in the code `get_val` returns the stripped
cell whenever the header resolves, so the blank cell yields `""`, not
`"Other"`. -/
theorem C1_counterexample :
    get_val ["Category"] [""] "Category" "Other" = Except.ok "" ∧
    (Except.ok "" : Except Unit String) ≠ Except.ok "Other" := by
  refine ⟨rfl, ?_⟩
  intro h
  injection h with h2
  exact absurd h2 (by decide)

/-- C1 (amended): the field extractor returns the cell value stripped of
surrounding whitespace whenever the field's header resolves — even when
that leaves the empty string — and returns the configured default exactly
when the header is absent.  Consequently a present-but-blank Category
cell yields `""` (the record keeps category `""`), and a present-but-blank
Amount cell yields `""`, which later fails float parsing and skips the
row. -/
theorem C1_default_only_when_header_absent (fs cells : List String)
    (key dflt : String) :
    (∀ a v, headers fs (lowerStr key) = some a → rowVal fs cells a = some v →
        get_val fs cells key dflt = Except.ok (pyStrip v)) ∧
    (headers fs (lowerStr key) = none →
        get_val fs cells key dflt = Except.ok dflt) ∧
    rowBill ["Name", "Due Date", "Category"] ["A", "20240101", ""] =
      some { name := "A", category := "", dueDate := "2024-01-01",
             amountDue := PyFloat.finite (mkRat 0 1), recurrence := "Monthly",
             notes := "" } ∧
    processRow ["Name", "Due Date", "Amount"] ["A", "20240101", ""] =
      RowOutcome.amountError "Other" := by
  refine ⟨?_, ?_, by decide, by decide⟩
  · intro a v h1 h2
    simp [get_val, h1, h2]
  · intro h1
    simp [get_val, h1]

/-- Witness for C1 (amended) at a concrete header and cell. -/
theorem C1_witness :
    get_val ["X"] ["  hi  "] "x" "d" = Except.ok "hi" :=
  (C1_default_only_when_header_absent ["X"] ["  hi  "] "x" "d").1
    "X" "  hi  " rfl rfl

/-- C2: for a non-empty raw due date, the code's date normalization
agrees with the spec's ordered policy (`-` with a 2-character first
segment → `%y-%m-%d`, `-` otherwise → `%Y-%m-%d`, `/` with a 2-character
last segment → `%m/%d/%y`, `/` otherwise → `%m/%d/%Y`, else compact
`%Y%m%d`; success renders `YYYY-MM-DD`, failure keeps the raw string),
and every produced record's `dueDate` is exactly the normalization of the
extracted raw due date. -/
theorem C2_date_policy (s : String) (hs : s ≠ "") :
    formatted_date s = specNormalizeDate s ∧
    (∀ fs cells f b, extractFields fs cells = Except.ok f →
        rowBill fs cells = some b → b.dueDate = formatted_date f.dueDate) := by
  constructor
  · unfold formatted_date specNormalizeDate
    rw [if_neg hs, tryParseDate_eq_spec]
  · intro fs cells f b hf hb
    obtain ⟨f2, a, hf2, hn, hd, hq, hbb⟩ := rowBill_some_elim fs cells b hb
    have hff : f = f2 := by
      have h12 := hf.symm.trans hf2
      injection h12
    subst hff
    rw [hbb]

/-- Witness for C2 at a concrete slash date with a two-digit year. -/
theorem C2_witness :
    formatted_date "03/15/24" = specNormalizeDate "03/15/24" :=
  (C2_date_policy "03/15/24" (by decide)).1

/-- C3: for a row past the required-field check, a parsable stripped
amount (after removing every `$` and `,`) becomes the record's
`amountDue`, and an unparsable one skips the row — nothing is appended
and the surrounding rows are processed as if the row were absent. -/
theorem C3_amount_policy (fs cells : List String) (f : Fields)
    (hf : extractFields fs cells = Except.ok f)
    (hn : ¬ f.name = "") (hd : ¬ f.dueDate = "") :
    (∀ q, pyFloat (stripAmount f.amount) = some q →
        ∃ b, rowBill fs cells = some b ∧ b.amountDue = q) ∧
    (pyFloat (stripAmount f.amount) = none →
        rowBill fs cells = none ∧
        ∀ pre post now,
          (convert_csv_to_json ⟨fs, pre ++ cells :: post⟩ now).bills =
            (convert_csv_to_json ⟨fs, pre ++ post⟩ now).bills) := by
  constructor
  · intro q hq
    have hp := (processRow_of_extract fs cells f hf).trans
      (processFields_accepted f hn hd q hq)
    exact ⟨_, rowBill_of_ok fs cells f.category _ hp, rfl⟩
  · intro hq
    have hp := (processRow_of_extract fs cells f hf).trans
      (processFields_amountError f hn hd hq)
    have hrb := rowBill_of_amountError fs cells f.category hp
    refine ⟨hrb, ?_⟩
    intro pre post now
    rw [convert_bills, convert_bills]
    simp [List.filterMap_append, hrb]

/-- Witness for C3: `"$1,234.56"` is stripped and parsed to the exact
value 1234.56. -/
theorem C3_witness :
    ∃ b, rowBill ["Name", "Due Date", "Amount"]
        ["A", "2024-01-01", "$1,234.56"] = some b ∧
      b.amountDue = PyFloat.finite (mkRat 30864 25) :=
  (C3_amount_policy ["Name", "Due Date", "Amount"]
      ["A", "2024-01-01", "$1,234.56"]
      { name := "A", category := "Other", dueDate := "2024-01-01",
        amount := "$1,234.56", recurrence := "Monthly", notes := "" }
      rfl (by decide) (by decide)).1
    (PyFloat.finite (mkRat 30864 25)) (by decide)

/-- C4: `customCategories` is the lexicographically sorted duplicate-free
set of the non-empty categories of exactly the rows that passed the
name/due-date requirement check — including rows later skipped by the
amount error (the set-then-skip quirk); rows skipped for a missing name
or due date contribute nothing (`specRowCat` states this condition in the
spec's words). -/
theorem C4_customCategories (file : CsvFile) (now : String) :
    (convert_csv_to_json file now).customCategories =
      ((file.rows.filterMap (specRowCat file.fieldnames)).toFinset).sort
        (· ≤ ·) := by
  rw [convert_cats]
  have h : rowCat file.fieldnames = specRowCat file.fieldnames :=
    funext fun cells => rowCat_eq_spec file.fieldnames cells
  rw [h]

/-- C5: the `bills` sequence is exactly the in-order `filterMap` of the
input rows — one record per accepted row, skipped rows omitted, no gaps,
no reordering, no duplication. -/
theorem C5_bills_order (file : CsvFile) (now : String) :
    (convert_csv_to_json file now).bills =
      file.rows.filterMap (rowBill file.fieldnames) :=
  convert_bills file now

/-- C6: a row whose extracted name or raw due date is empty produces no
record and no category, is excluded from the bills output and from the
converted-bill count, and the remaining rows are processed normally. -/
theorem C6_required_fields (fs cells : List String) (f : Fields)
    (hf : extractFields fs cells = Except.ok f)
    (h : f.name = "" ∨ f.dueDate = "") :
    rowBill fs cells = none ∧ rowCat fs cells = none ∧
    ∀ pre post now,
      (convert_csv_to_json ⟨fs, pre ++ cells :: post⟩ now).bills =
        (convert_csv_to_json ⟨fs, pre ++ post⟩ now).bills ∧
      (convert_csv_to_json ⟨fs, pre ++ cells :: post⟩ now).bills.length =
        (convert_csv_to_json ⟨fs, pre ++ post⟩ now).bills.length := by
  have hp := (processRow_of_extract fs cells f hf).trans
    (processFields_skip f h)
  have hrb := rowBill_of_skip fs cells hp
  have hrc := rowCat_of_skip fs cells hp
  refine ⟨hrb, hrc, ?_⟩
  intro pre post now
  have hb : (convert_csv_to_json ⟨fs, pre ++ cells :: post⟩ now).bills =
      (convert_csv_to_json ⟨fs, pre ++ post⟩ now).bills := by
    rw [convert_bills, convert_bills]
    simp [List.filterMap_append, hrb]
  exact ⟨hb, by rw [hb]⟩

/-- Witness for C6 at a concrete row with an empty name. -/
theorem C6_witness :
    rowBill ["Name", "Due Date"] ["", "2024-01-01"] = none :=
  (C6_required_fields ["Name", "Due Date"] ["", "2024-01-01"]
      { name := "", category := "Other", dueDate := "2024-01-01",
        amount := "0", recurrence := "Monthly", notes := "" }
      rfl (Or.inl rfl)).1

/-- C7: a row whose processing raises (a cell-access exception during
field extraction, or the float conversion error) contributes no record;
the run is never aborted — the payload is still assembled with the bills
of the remaining rows, the fixed version, and the export timestamp. -/
theorem C7_row_error_isolated (fs cells : List String)
    (h : processRow fs cells = RowOutcome.fieldError ∨
         ∃ c, processRow fs cells = RowOutcome.amountError c) :
    rowBill fs cells = none ∧
    ∀ pre post now,
      (convert_csv_to_json ⟨fs, pre ++ cells :: post⟩ now).bills =
        (convert_csv_to_json ⟨fs, pre ++ post⟩ now).bills ∧
      (convert_csv_to_json ⟨fs, pre ++ cells :: post⟩ now).exportDate =
        now ++ "Z" ∧
      (convert_csv_to_json ⟨fs, pre ++ cells :: post⟩ now).version = "1.0" := by
  have hrb : rowBill fs cells = none := by
    cases h with
    | inl h => exact rowBill_of_fieldError fs cells h
    | inr h =>
      obtain ⟨c, h⟩ := h
      exact rowBill_of_amountError fs cells c h
  refine ⟨hrb, ?_⟩
  intro pre post now
  refine ⟨?_, rfl, rfl⟩
  rw [convert_bills, convert_bills]
  simp [List.filterMap_append, hrb]

/-- Witness for C7 at a concrete row with an unparsable amount. -/
theorem C7_witness :
    rowBill ["Name", "Due Date", "Amount"] ["A", "2024-01-01", "abc"] =
      none :=
  (C7_row_error_isolated ["Name", "Due Date", "Amount"]
      ["A", "2024-01-01", "abc"] (Or.inr ⟨"Other", rfl⟩)).1

/-- C8: every record that reaches the output has a non-empty `dueDate`:
the required-field check rejects empty raw due dates before date
normalization, and normalization of a non-empty string never returns the
empty string, so the empty-date branch is unreachable for produced
records. -/
theorem C8_dueDate_nonempty (fs cells : List String) (b : Bill)
    (h : rowBill fs cells = some b) : b.dueDate ≠ "" := by
  obtain ⟨f, a, hf, hn, hd, hq, hbb⟩ := rowBill_some_elim fs cells b h
  rw [hbb]
  exact formatted_date_ne f.dueDate hd

/-- Witness for C8 at a concrete accepted row. -/
theorem C8_witness :
    Bill.dueDate
        { name := "A", category := "Other", dueDate := "x",
          amountDue := PyFloat.finite (mkRat 0 1), recurrence := "Monthly",
          notes := "" } ≠ "" :=
  C8_dueDate_nonempty ["Name", "Due Date"] ["A", "x"] _ rfl

/-- The concrete file exercising amount strings accepted by `float` that
are not ordinary decimal numerals. -/
def c9File : CsvFile :=
  { fieldnames := ["Name", "Due Date", "Amount"],
    rows := [["A", "2024-01-01", "nan"], ["B", "2024-01-01", "inf"],
             ["C", "2024-01-01", "1e3"], ["D", "2024-01-01", "+5"]] }

/-- C9: the amount strings `"nan"`, `"inf"`, `"1e3"` and `"+5"` are all
accepted by the float parse — the rows are not skipped — and the records'
`amountDue` values are NaN, Infinity, 1000 and 5. -/
theorem C9_exotic_amounts :
    (convert_csv_to_json c9File "T").bills.map Bill.amountDue =
      [PyFloat.nan, PyFloat.inf false, PyFloat.finite (mkRat 1000 1),
       PyFloat.finite (mkRat 5 1)] ∧
    (convert_csv_to_json c9File "T").bills.length = 4 := by
  constructor <;> decide

/-- C10: the converter is deterministic in the CSV content — the version,
bills and customCategories of two runs on the same decoded file agree,
and only the export timestamp (taken from the clock parameter) differs. -/
theorem C10_deterministic (file : CsvFile) (t1 t2 : String) :
    (convert_csv_to_json file t1).version =
      (convert_csv_to_json file t2).version ∧
    (convert_csv_to_json file t1).bills = (convert_csv_to_json file t2).bills ∧
    (convert_csv_to_json file t1).customCategories =
      (convert_csv_to_json file t2).customCategories ∧
    (convert_csv_to_json file t1).exportDate = t1 ++ "Z" :=
  ⟨rfl, rfl, rfl, rfl⟩
